import Mathlib

/-!
# HTTP handlers of `internal/app/http_handlers.go`

A shallow embedding of the request handlers `serveCrawl`, `serveIssues`,
`serveIssuesView`, `serveResourcesView`, `serveDownloadCSV` and `serveSitemap`.

* Go's `int` is modelled as `Int`; arithmetic that the source performs on `int`
  is wrapped to 64 bits with `wrapInt`.
* A handler is a function from the requesting user and the request to the
  ordered list of observable effects it performs: log lines, store calls,
  redirects, header writes, template renders and body writes.
* The datastore is a record of query functions; the helpers declared in other
  files of the package (`url.Parse`, `NewChart`, `startCrawler`,
  `createIssues`, the clock) are fields of an environment record.
-/

namespace Seonaut

/-! ## Machine integers -/

/-- Smallest value of Go's 64-bit `int`. -/
def minInt : Int := -(2 ^ 63)

/-- Largest value of Go's 64-bit `int`. -/
def maxInt : Int := 2 ^ 63 - 1

/-- Two's-complement wrap of a mathematical integer into the range of `int`. -/
def wrapInt (x : Int) : Int := (x + 2 ^ 63) % 2 ^ 64 - 2 ^ 63

/-- Membership in the range of Go's `int`. -/
def InInt (x : Int) : Prop := minInt ≤ x ∧ x ≤ maxInt

instance (x : Int) : Decidable (InInt x) := by
  unfold InInt; infer_instance

/-! ## `strconv.Atoi` -/

/-- Value of a decimal digit byte, `none` for any other character. -/
def digitVal (c : Char) : Option Nat :=
  if '0' ≤ c ∧ c ≤ '9' then some (c.toNat - '0'.toNat) else none

/-- Accumulate decimal digits left to right; `none` on the first non-digit. -/
def parseDigits : List Char → Nat → Option Nat
  | [], acc => some acc
  | c :: cs, acc =>
    match digitVal c with
    | none => none
    | some d => parseDigits cs (acc * 10 + d)

/-- Unsigned part of `strconv.Atoi`: at least one digit, digits only. -/
def parseUnsigned (ds : List Char) : Option Nat :=
  match ds with
  | [] => none
  | _ => parseDigits ds 0

/-- Go's `strconv.Atoi`: an optional sign followed by decimal digits, within the
range of `int`. `none` stands for a non-nil error (syntax or range). -/
def Atoi (s : String) : Option Int :=
  match s.toList with
  | [] => none
  | '-' :: ds =>
    match parseUnsigned ds with
    | none => none
    | some n => if (n : Int) ≤ 2 ^ 63 then some (-(n : Int)) else none
  | '+' :: ds =>
    match parseUnsigned ds with
    | none => none
    | some n => if (n : Int) < 2 ^ 63 then some (n : Int) else none
  | ds =>
    match parseUnsigned ds with
    | none => none
    | some n => if (n : Int) < 2 ^ 63 then some (n : Int) else none

/-! ## Data model -/

/-- Timestamps (`time.Time`), kept abstract as a number. -/
abbrev Time := Nat

/-- The `user.User` record: the fields the handlers read. -/
structure User where
  Id : Int
  Advanced : Bool
deriving DecidableEq, Repr

/-- The `Project` struct of the source. -/
structure Project where
  Id : Int
  URL : String
  Host : String
  IgnoreRobotsTxt : Bool
  UseJS : Bool
  Created : Time
deriving DecidableEq, Repr

/-- Zero value of `Project`. -/
def Project.zero : Project :=
  { Id := 0, URL := "", Host := "", IgnoreRobotsTxt := false, UseJS := false, Created := 0 }

/-- The `Crawl` record (declared in another file): the field the handlers read. -/
structure Crawl where
  ProjectId : Int
deriving DecidableEq, Repr

/-- The `report.PageReport` record (another package): the field the handlers read. -/
structure PageReport where
  URL : String
deriving DecidableEq, Repr

/-- The `IssueGroup` record (declared in another file): the fields read by the
roll-up loop of `serveIssues`. -/
structure IssueGroup where
  Priority : Int
  Count : Int
deriving DecidableEq, Repr

/-- The three priority constants `Critical`, `Alert`, `Warning`, declared in
another file of the package and therefore taken as parameters. -/
structure Priorities where
  Critical : Int
  Alert : Int
  Warning : Int
deriving DecidableEq, Repr

/-- Go rejects a `switch` with duplicate constant cases, so the three constants
used as cases in `serveIssues` are pairwise distinct. -/
def Priorities.Distinct (pr : Priorities) : Prop :=
  pr.Critical ≠ pr.Alert ∧ pr.Critical ≠ pr.Warning ∧ pr.Alert ≠ pr.Warning

instance (pr : Priorities) : Decidable pr.Distinct := by
  unfold Priorities.Distinct; infer_instance

/-- `CountList` (declared in another file), carried through unchanged. -/
abbrev CountList := List (String × Int)

/-- `Chart` (declared in another file), carried through unchanged. -/
abbrev Chart := List (String × Int)

/-- The defect kinds named by the `addReporter` calls of `serveCrawl`. The
constants are declared in another file of the package; each identifier stands
for its own kind. -/
inductive ErrorKind where
  | Error30x | Error40x | Error50x
  | ErrorDuplicatedTitle | ErrorDuplicatedDescription
  | ErrorEmptyTitle | ErrorShortTitle | ErrorLongTitle
  | ErrorEmptyDescription | ErrorShortDescription | ErrorLongDescription
  | ErrorLittleContent | ErrorImagesWithNoAlt | ErrorRedirectChain
  | ErrorNoH1 | ErrorNoLang | ErrorHTTPLinks | ErrorHreflangsReturnLink
  | ErrorTooManyLinks | ErrorInternalNoFollow | ErrorExternalWithoutNoFollow
  | ErrorCanonicalizedToNonCanonical | ErrorRedirectLoop | ErrorNotValidHeadings
deriving DecidableEq, Repr

/-- The datastore methods passed as detector functions to `addReporter`. -/
inductive DetectorFn where
  | Find30xPageReports | Find40xPageReports | Find50xPageReports
  | FindPageReportsWithDuplicatedTitle
  | FindPageReportsWithEmptyTitle | FindPageReportsWithShortTitle
  | FindPageReportsWithLongTitle
  | FindPageReportsWithEmptyDescription | FindPageReportsWithShortDescription
  | FindPageReportsWithLongDescription
  | FindPageReportsWithLittleContent | FindImagesWithNoAlt | findRedirectChains
  | FindPageReportsWithoutH1 | FindPageReportsWithNoLangAttr
  | FindPageReportsWithHTTPLinks | FindMissingHrelangReturnLinks
  | tooManyLinks | internalNoFollowLinks | findExternalLinkWitoutNoFollow
  | findCanonicalizedToNonCanonical | findNotValidHeadingsOrder
deriving DecidableEq, Repr

/-- An issue produced by `createIssues` (declared in another file). -/
structure Issue where
  PageReportId : Int
  ErrorType : ErrorKind
deriving DecidableEq, Repr

/-- The `ReportManager`: the ordered list of registered (detector, kind) pairs. -/
structure ReportManager where
  reporters : List (DetectorFn × ErrorKind)
deriving DecidableEq, Repr

/-- Modelled from the spec: `addReporter` is declared in another file of the
package; "`register(detectorFn, defectKind)` appends a pair to an ordered list". -/
def ReportManager.addReporter (rm : ReportManager) (d : DetectorFn) (k : ErrorKind) :
    ReportManager :=
  { reporters := rm.reporters ++ [(d, k)] }

/-! ## Views -/

/-- The `IssuesGroupView` struct; the map is kept in iteration order. -/
structure IssuesGroupView where
  IssuesGroups : List (String × IssueGroup)
  Project : Project
  Crawl : Crawl
  MediaCount : CountList
  StatusCodeCount : CountList
  MediaChart : Chart
  StatusChart : Chart
  Critical : Int
  Alert : Int
  Warning : Int
deriving DecidableEq, Repr

/-- The `IssuesView` struct. -/
structure IssuesView where
  PageReports : List PageReport
  Cid : Int
  Eid : String
  Project : Project
  CurrentPage : Int
  NextPage : Int
  PreviousPage : Int
  TotalPages : Int
deriving DecidableEq, Repr

/-- The `ResourcesView` struct. -/
structure ResourcesView where
  PageReport : PageReport
  Cid : Int
  Eid : String
  ErrorTypes : List String
  InLinks : List Seonaut.PageReport
  Redirects : List Seonaut.PageReport
  Project : Project
  Tab : String
deriving DecidableEq, Repr

/-- The `Data` field of a `PageView`, one alternative per view struct. -/
inductive ViewData where
  | issuesGroup (v : IssuesGroupView)
  | issues (v : IssuesView)
  | resources (v : ResourcesView)
deriving DecidableEq, Repr

/-- The `PageView` handed to the renderer. -/
structure PageView where
  Data : ViewData
  User : User
  PageTitle : String
deriving DecidableEq, Repr

/-! ## Requests, store and effects -/

/-- The part of `http.Request` the handlers read: `r.URL.Query()`, a map from
parameter name to its list of values (`none` when the key is absent). -/
structure Request where
  Query : String → Option (List String)

/-- The idiom `q, ok := r.URL.Query()[k]; if !ok || len(q) < 1 { missing }; q[0]`. -/
def Request.first (r : Request) (k : String) : Option String :=
  match r.Query k with
  | some (x :: _) => some x
  | _ => none

/-- The idiom `q := r.URL.Query()[k]`: the nil slice for an absent key. -/
def Request.values (r : Request) (k : String) : List String :=
  (r.Query k).getD []

/-- The datastore methods the handlers call; a Go result `(value, err)` is a
pair whose second component is `none` for a nil error. -/
structure Datastore where
  findCrawlUserId : Int → User × Option String
  findIssues : Int → List (String × IssueGroup)
  findCrawlById : Int → Crawl
  findProjectById : Int → Int → Project × Option String
  CountByMediaType : Int → CountList
  CountByStatusCode : Int → CountList
  getNumberOfPagesForIssues : Int → String → Int
  findPageReportIssues : Int → Int → String → List PageReport
  FindPageReportById : Int → PageReport
  findErrorTypesByPage : Int → Int → List String
  FindInLinks : String → Int → List PageReport
  FindPageReportsRedirectingToURL : String → Int → List PageReport
  FindAllPageReportsByCrawlIdAndErrorType : Int → String → List PageReport
  FindAllPageReportsByCrawlId : Int → List PageReport
  findSitemapPageReports : Int → List PageReport

/-- Helpers of other files and packages that the handlers call. -/
structure Env where
  prio : Priorities
  /-- Result of `url.Parse`: the `Host` of the parsed URL, `none` for an error
  (the returned pointer is then nil). -/
  urlParse : String → Option String
  NewChart : CountList → Chart
  /-- The string `time.Now().Format("2-15-2006")`. -/
  today : String
  /-- The value `time.Now()` passed to `saveEndIssues`. -/
  now : Time
  /-- The crawl id returned by `startCrawler` for a project and the user's
  `Advanced` flag. -/
  startCrawler : Project → Bool → Int
  /-- The issues returned by `rm.createIssues(cid)`. -/
  createIssues : ReportManager → Int → List Issue

/-- A call on the datastore, with its arguments. -/
inductive StoreCall where
  | findCrawlUserId (cid : Int)
  | findIssues (cid : Int)
  | findCrawlById (cid : Int)
  | findProjectById (pid uid : Int)
  | CountByMediaType (cid : Int)
  | CountByStatusCode (cid : Int)
  | getNumberOfPagesForIssues (cid : Int) (eid : String)
  | findPageReportIssues (cid page : Int) (eid : String)
  | FindPageReportById (rid : Int)
  | findErrorTypesByPage (rid cid : Int)
  | FindInLinks (url : String) (cid : Int)
  | FindPageReportsRedirectingToURL (url : String) (cid : Int)
  | FindAllPageReportsByCrawlIdAndErrorType (cid : Int) (eid : String)
  | FindAllPageReportsByCrawlId (cid : Int)
  | findSitemapPageReports (cid : Int)
  | saveIssues (issues : List Issue) (cid : Int)
  | saveEndIssues (cid : Int) (t : Time) (total : Int)
  | DeletePreviousCrawl (pid : Int)
deriving DecidableEq, Repr

/-- One observable step of a handler or of the background task. -/
inductive Effect where
  /-- The call `log.Println` or `log.Printf` with a fixed text. -/
  | log (text : String)
  /-- The call `log.Println(err)`. -/
  | logErr
  | store (c : StoreCall)
  /-- The call `http.Redirect(w, r, target, code)`. -/
  | redirect (target : String) (code : Nat)
  /-- The call `app.renderer.renderTemplate(w, template, v)`. -/
  | render (template : String) (v : PageView)
  /-- The call `w.Header().Add(key, value)`. -/
  | addHeader (key value : String)
  /-- One `cw.Write(p)` on the CSV writer over `w`. -/
  | csvWrite (p : PageReport)
  /-- One `s.Add(url, "")` on the sitemap over `w`. -/
  | sitemapAdd (url : String)
  /-- The final `s.Write()` of the sitemap. -/
  | sitemapWrite
  /-- The `go func() { ... }()` statement starting the analysis of a project. -/
  | goAnalysis (p : Project)
  /-- The call `startCrawler(p, ...)`. -/
  | startCrawler (p : Project)
  /-- The call `rm.createIssues(cid)`. -/
  | createIssues (cid : Int)
  /-- A nil-pointer dereference (`ParsedURL.Host` after a failed `url.Parse`):
  the handler panics and performs nothing further. -/
  | nilDeref
deriving DecidableEq, Repr

/-- The constant `http.StatusSeeOther`. -/
def StatusSeeOther : Nat := 303

/-- The statement `http.Redirect(w, r, "/", http.StatusSeeOther)`. -/
def redirectHome : Effect := Effect.redirect "/" StatusSeeOther

/-! ## `serveCrawl` -/

/-- The report manager built by the `addReporter` calls of `serveCrawl`, in
source order, starting from `ReportManager{}`. -/
def crawlReportManager : ReportManager :=
  ({ reporters := [] } : ReportManager)
    |>.addReporter .Find30xPageReports .Error30x
    |>.addReporter .Find40xPageReports .Error40x
    |>.addReporter .Find50xPageReports .Error50x
    |>.addReporter .FindPageReportsWithDuplicatedTitle .ErrorDuplicatedTitle
    |>.addReporter .FindPageReportsWithDuplicatedTitle .ErrorDuplicatedDescription
    |>.addReporter .FindPageReportsWithEmptyTitle .ErrorEmptyTitle
    |>.addReporter .FindPageReportsWithShortTitle .ErrorShortTitle
    |>.addReporter .FindPageReportsWithLongTitle .ErrorLongTitle
    |>.addReporter .FindPageReportsWithEmptyDescription .ErrorEmptyDescription
    |>.addReporter .FindPageReportsWithShortDescription .ErrorShortDescription
    |>.addReporter .FindPageReportsWithLongDescription .ErrorLongDescription
    |>.addReporter .FindPageReportsWithLittleContent .ErrorLittleContent
    |>.addReporter .FindImagesWithNoAlt .ErrorImagesWithNoAlt
    |>.addReporter .findRedirectChains .ErrorRedirectChain
    |>.addReporter .FindPageReportsWithoutH1 .ErrorNoH1
    |>.addReporter .FindPageReportsWithNoLangAttr .ErrorNoLang
    |>.addReporter .FindPageReportsWithHTTPLinks .ErrorHTTPLinks
    |>.addReporter .FindMissingHrelangReturnLinks .ErrorHreflangsReturnLink
    |>.addReporter .tooManyLinks .ErrorTooManyLinks
    |>.addReporter .internalNoFollowLinks .ErrorInternalNoFollow
    |>.addReporter .findExternalLinkWitoutNoFollow .ErrorExternalWithoutNoFollow
    |>.addReporter .findCanonicalizedToNonCanonical .ErrorCanonicalizedToNonCanonical
    |>.addReporter .findCanonicalizedToNonCanonical .ErrorRedirectLoop
    |>.addReporter .findNotValidHeadingsOrder .ErrorNotValidHeadings

/-- The body of the goroutine started by `serveCrawl` for project `p`: crawl,
create the issues, persist them, record the end of the analysis, delete the
previous crawl. -/
def analysisTask (env : Env) (user : User) (p : Project) : List Effect :=
  let cid := env.startCrawler p user.Advanced
  let issues := env.createIssues crawlReportManager cid
  let totalIssues : Int := issues.length
  [ Effect.log "Crawling",
    Effect.startCrawler p,
    Effect.log "Done crawling",
    Effect.log "Creating issues",
    Effect.createIssues cid,
    Effect.store (StoreCall.saveIssues issues cid),
    Effect.store (StoreCall.saveEndIssues cid env.now totalIssues),
    Effect.log "Done creating issues",
    Effect.log "Deleting previous crawl data",
    Effect.store (StoreCall.DeletePreviousCrawl p.Id),
    Effect.log "Deleted previous crawl done" ]

/-- The handler `serveCrawl`, up to the start of the goroutine. -/
def serveCrawl (ds : Datastore) (user : User) (r : Request) : List Effect :=
  match r.first "pid" with
  | none => [Effect.log "serveCrawl: pid parameter is missing"]
  | some q =>
    match Atoi q with
    | none => [Effect.logErr, redirectHome]
    | some pid =>
      let res := ds.findProjectById pid user.Id
      if res.2.isSome then
        [Effect.store (StoreCall.findProjectById pid user.Id), redirectHome]
      else
        [Effect.store (StoreCall.findProjectById pid user.Id),
         Effect.goAnalysis res.1, redirectHome]

/-! ## `serveIssues` -/

/-- The three totals accumulated by the loop of `serveIssues`. -/
structure Totals where
  critical : Int
  alert : Int
  warning : Int
deriving DecidableEq, Repr

/-- One iteration of `for _, v := range issueGroups { switch v.Priority { ... } }`. -/
def rollUpStep (pr : Priorities) (t : Totals) (v : IssueGroup) : Totals :=
  if v.Priority = pr.Critical then { t with critical := wrapInt (t.critical + v.Count) }
  else if v.Priority = pr.Alert then { t with alert := wrapInt (t.alert + v.Count) }
  else if v.Priority = pr.Warning then { t with warning := wrapInt (t.warning + v.Count) }
  else t

/-- The whole loop over the map, visited in the order of the list. -/
def rollUp (pr : Priorities) (groups : List (String × IssueGroup)) : Totals :=
  groups.foldl (fun t kv => rollUpStep pr t kv.2) { critical := 0, alert := 0, warning := 0 }

/-- The handler `serveIssues`. -/
def serveIssues (env : Env) (ds : Datastore) (user : User) (r : Request) : List Effect :=
  match r.first "cid" with
  | none => [Effect.log "serveIssues: cid parameter missing"]
  | some q =>
    match Atoi q with
    | none => [Effect.logErr, redirectHome]
    | some cid =>
      let u := ds.findCrawlUserId cid
      if u.2.isSome ∨ u.1.Id ≠ user.Id then
        [Effect.store (StoreCall.findCrawlUserId cid), redirectHome]
      else
        let issueGroups := ds.findIssues cid
        let crawl := ds.findCrawlById cid
        let pres := ds.findProjectById crawl.ProjectId user.Id
        let project := pres.1
        let mediaCount := ds.CountByMediaType cid
        let mediaChart := env.NewChart mediaCount
        let statusCount := ds.CountByStatusCode cid
        let statusChart := env.NewChart statusCount
        [Effect.store (StoreCall.findCrawlUserId cid),
         Effect.store (StoreCall.findIssues cid),
         Effect.store (StoreCall.findCrawlById cid),
         Effect.store (StoreCall.findProjectById crawl.ProjectId user.Id)]
        ++ (if pres.2.isSome then [Effect.logErr, redirectHome] else [])
        ++ [Effect.store (StoreCall.CountByMediaType cid),
            Effect.store (StoreCall.CountByStatusCode cid)]
        ++ (match env.urlParse project.URL with
            | none => [Effect.logErr, redirectHome, Effect.nilDeref]
            | some host =>
              let t := rollUp env.prio issueGroups
              [Effect.render "issues"
                { Data := ViewData.issuesGroup
                    { IssuesGroups := issueGroups
                      Crawl := crawl
                      Project := { project with Host := host }
                      MediaCount := mediaCount
                      MediaChart := mediaChart
                      StatusChart := statusChart
                      StatusCodeCount := statusCount
                      Critical := t.critical
                      Alert := t.alert
                      Warning := t.warning }
                  User := user
                  PageTitle := "ISSUES_VIEW" }])

/-! ## `serveIssuesView` -/

/-- Lines 327-341: the choice of the one-based page. The result is the list of
effects performed and the page to continue with, `none` when the handler has
redirected and returned. -/
def selectPage (totalPages : Int) (p : List String) : List Effect × Option Int :=
  match p with
  | [] => ([], some 1)
  | x :: _ =>
    let parsed : List Effect × Int :=
      match Atoi x with
      | some n => ([], n)
      | none => ([Effect.logErr], 1)
    if parsed.2 < 1 ∨ parsed.2 > totalPages then
      (parsed.1 ++ [redirectHome], none)
    else
      (parsed.1, some parsed.2)

/-- Lines 343-348: `nextPage`. -/
def nextPageOf (page totalPages : Int) : Int :=
  if page < totalPages then wrapInt (page + 1) else 0

/-- Lines 344-352: `previousPage`. -/
def previousPageOf (page : Int) : Int :=
  if page > 1 then wrapInt (page - 1) else 0

/-- The handler `serveIssuesView`. -/
def serveIssuesView (env : Env) (ds : Datastore) (user : User) (r : Request) : List Effect :=
  match r.first "eid" with
  | none => [Effect.log "serveIssuesView: eid parameter missing", redirectHome]
  | some eid =>
    match r.first "cid" with
    | none => [Effect.log "serveIssuesView: cid parameter missing", redirectHome]
    | some q =>
      match Atoi q with
      | none => [Effect.logErr, redirectHome]
      | some cid =>
        let totalPages := ds.getNumberOfPagesForIssues cid eid
        let sel := selectPage totalPages (r.values "p")
        [Effect.store (StoreCall.getNumberOfPagesForIssues cid eid)] ++ sel.1 ++
        (match sel.2 with
         | none => []
         | some page =>
           let nextPage := nextPageOf page totalPages
           let previousPage := previousPageOf page
           let u := ds.findCrawlUserId cid
           if u.2.isSome ∨ u.1.Id ≠ user.Id then
             [Effect.store (StoreCall.findCrawlUserId cid), redirectHome]
           else
             let crawl := ds.findCrawlById cid
             let pres := ds.findProjectById crawl.ProjectId user.Id
             let project := pres.1
             [Effect.store (StoreCall.findCrawlUserId cid),
              Effect.store (StoreCall.findCrawlById cid),
              Effect.store (StoreCall.findProjectById crawl.ProjectId user.Id)]
             ++ (if pres.2.isSome then [Effect.logErr, redirectHome] else [])
             ++ (match env.urlParse project.URL with
                 | none => [Effect.logErr, redirectHome, Effect.nilDeref]
                 | some host =>
                   let issues := ds.findPageReportIssues cid (wrapInt (page - 1)) eid
                   [Effect.store (StoreCall.findPageReportIssues cid (wrapInt (page - 1)) eid),
                    Effect.render "issues_view"
                      { Data := ViewData.issues
                          { Cid := cid
                            Eid := eid
                            PageReports := issues
                            Project := { project with Host := host }
                            CurrentPage := page
                            NextPage := nextPage
                            PreviousPage := previousPage
                            TotalPages := totalPages }
                        User := user
                        PageTitle := "ISSUES_DETAIL" }]))

/-! ## `serveResourcesView` -/

/-- Lines 431-437: the tab, `"details"` when the `t` parameter is absent. -/
def selectTab (tabs : List String) : String :=
  match tabs with
  | [] => "details"
  | t :: _ => t

/-- The handler `serveResourcesView`. -/
def serveResourcesView (env : Env) (ds : Datastore) (user : User) (r : Request) :
    List Effect :=
  match r.first "rid" with
  | none => [Effect.log "serveResourcesView: rid paramenter missing", redirectHome]
  | some qr =>
    match Atoi qr with
    | none => [Effect.logErr, redirectHome]
    | some rid =>
      match r.first "cid" with
      | none => [Effect.log "serveResourcesView: cid parameter missing", redirectHome]
      | some qc =>
        match Atoi qc with
        | none => [Effect.logErr, redirectHome]
        | some cid =>
          let tab := selectTab (r.values "t")
          match r.first "eid" with
          | none => [Effect.log "serveResourcesView: eid parameter missing", redirectHome]
          | some eid =>
            let u := ds.findCrawlUserId cid
            if u.2.isSome ∨ u.1.Id ≠ user.Id then
              [Effect.store (StoreCall.findCrawlUserId cid), redirectHome]
            else
              let crawl := ds.findCrawlById cid
              let pres := ds.findProjectById crawl.ProjectId user.Id
              let project := pres.1
              [Effect.store (StoreCall.findCrawlUserId cid),
               Effect.store (StoreCall.findCrawlById cid),
               Effect.store (StoreCall.findProjectById crawl.ProjectId user.Id)]
              ++ (if pres.2.isSome then [Effect.logErr, redirectHome] else [])
              ++ (match env.urlParse project.URL with
                  | none => [Effect.logErr, redirectHome, Effect.nilDeref]
                  | some host =>
                    let pageReport := ds.FindPageReportById rid
                    let errorTypes := ds.findErrorTypesByPage rid cid
                    let inLinks : List PageReport × List Effect :=
                      if tab = "inlinks" then
                        (ds.FindInLinks pageReport.URL cid,
                         [Effect.store (StoreCall.FindInLinks pageReport.URL cid)])
                      else ([], [])
                    let redirects : List PageReport × List Effect :=
                      if tab = "redirections" then
                        (ds.FindPageReportsRedirectingToURL pageReport.URL cid,
                         [Effect.store
                            (StoreCall.FindPageReportsRedirectingToURL pageReport.URL cid)])
                      else ([], [])
                    [Effect.store (StoreCall.FindPageReportById rid),
                     Effect.store (StoreCall.findErrorTypesByPage rid cid)]
                    ++ inLinks.2 ++ redirects.2 ++
                    [Effect.render "resources"
                      { Data := ViewData.resources
                          { PageReport := pageReport
                            Project := { project with Host := host }
                            Cid := cid
                            Eid := eid
                            ErrorTypes := errorTypes
                            InLinks := inLinks.1
                            Redirects := redirects.1
                            Tab := tab }
                        User := user
                        PageTitle := "RESOURCES_VIEW" }])

/-! ## `serveDownloadCSV` -/

/-- The handler `serveDownloadCSV`. -/
def serveDownloadCSV (env : Env) (ds : Datastore) (user : User) (r : Request) :
    List Effect :=
  match r.first "cid" with
  | none => [Effect.log "serveDownloadCSV: cid parameter missing", redirectHome]
  | some q =>
    match Atoi q with
    | none => [Effect.logErr, redirectHome]
    | some cid =>
      let u := ds.findCrawlUserId cid
      if u.2.isSome ∨ u.1.Id ≠ user.Id then
        [Effect.store (StoreCall.findCrawlUserId cid), redirectHome]
      else
        let crawl := ds.findCrawlById cid
        let pres := ds.findProjectById crawl.ProjectId user.Id
        let project := pres.1
        [Effect.store (StoreCall.findCrawlUserId cid),
         Effect.store (StoreCall.findCrawlById cid),
         Effect.store (StoreCall.findProjectById crawl.ProjectId user.Id)]
        ++ (if pres.2.isSome then [Effect.logErr, redirectHome] else [])
        ++ (match env.urlParse project.URL with
            | none => [Effect.logErr, redirectHome, Effect.nilDeref]
            | some host =>
              let fileName := host ++ " crawl " ++ env.today
              let chosen : String × List PageReport × Effect :=
                match r.values "eid" with
                | [] =>
                  (fileName, ds.FindAllPageReportsByCrawlId cid,
                   Effect.store (StoreCall.FindAllPageReportsByCrawlId cid))
                | e :: _ =>
                  if e ≠ "" then
                    (fileName ++ "-" ++ e,
                     ds.FindAllPageReportsByCrawlIdAndErrorType cid e,
                     Effect.store (StoreCall.FindAllPageReportsByCrawlIdAndErrorType cid e))
                  else
                    (fileName, ds.FindAllPageReportsByCrawlId cid,
                     Effect.store (StoreCall.FindAllPageReportsByCrawlId cid))
              [chosen.2.2,
               Effect.addHeader "Content-Disposition"
                 ("attachment; filename=\"" ++ chosen.1 ++ ".csv\"")]
              ++ chosen.2.1.map Effect.csvWrite)

/-! ## `serveSitemap` -/

/-- The handler `serveSitemap`. -/
def serveSitemap (env : Env) (ds : Datastore) (user : User) (r : Request) : List Effect :=
  match r.first "cid" with
  | none => [Effect.log "serveSitemap: cid parameter missings", redirectHome]
  | some q =>
    match Atoi q with
    | none => [Effect.logErr, redirectHome]
    | some cid =>
      let u := ds.findCrawlUserId cid
      if u.2.isSome ∨ u.1.Id ≠ user.Id then
        [Effect.store (StoreCall.findCrawlUserId cid), redirectHome]
      else
        let crawl := ds.findCrawlById cid
        let pres := ds.findProjectById crawl.ProjectId user.Id
        let project := pres.1
        [Effect.store (StoreCall.findCrawlUserId cid),
         Effect.store (StoreCall.findCrawlById cid),
         Effect.store (StoreCall.findProjectById crawl.ProjectId user.Id)]
        ++ (if pres.2.isSome then [Effect.logErr, redirectHome] else [])
        ++ (match env.urlParse project.URL with
            | none => [Effect.logErr, redirectHome, Effect.nilDeref]
            | some host =>
              [Effect.addHeader "Content-Disposition"
                 ("attachment; filename=\"" ++ host ++ " " ++ env.today ++ " sitemap.xml\""),
               Effect.store (StoreCall.findSitemapPageReports cid)]
              ++ (ds.findSitemapPageReports cid).map (fun v => Effect.sitemapAdd v.URL)
              ++ [Effect.sitemapWrite])

/-! ## Observations on effect lists -/

/-- The effect starts or completes a response to the client: a redirect, a
rendered template, a header or a body write. Log lines and store calls do not. -/
def Effect.isResponse : Effect → Bool
  | Effect.redirect _ _ => true
  | Effect.render _ _ => true
  | Effect.addHeader _ _ => true
  | Effect.csvWrite _ => true
  | Effect.sitemapAdd _ => true
  | Effect.sitemapWrite => true
  | _ => false

/-- What the client sees of a handler run: its response effects, in order. -/
def response (es : List Effect) : List Effect := es.filter Effect.isResponse

/-- The datastore calls of a run, in order. -/
def storeCalls (es : List Effect) : List StoreCall :=
  es.filterMap fun e => match e with
    | Effect.store c => some c
    | _ => none

/-- The page indexes passed to `findPageReportIssues` during a run. -/
def pageQueries (es : List Effect) : List Int :=
  es.filterMap fun e => match e with
    | Effect.store (StoreCall.findPageReportIssues _ page _) => some page
    | _ => none

/-- The crawl-ownership test shared by the handlers: `err != nil || u.Id != user.Id`. -/
def notOwner (ds : Datastore) (user : User) (cid : Int) : Prop :=
  (ds.findCrawlUserId cid).2.isSome ∨ (ds.findCrawlUserId cid).1.Id ≠ user.Id

instance (ds : Datastore) (user : User) (cid : Int) : Decidable (notOwner ds user cid) := by
  unfold notOwner; infer_instance

/-- The sum of `Count` over the groups whose `Priority` is `tier`, as the
specification words it. -/
def tierSum (tier : Int) (groups : List (String × IssueGroup)) : Int :=
  ((groups.filter (fun kv => kv.2.Priority = tier)).map (fun kv => kv.2.Count)).sum

/-! ## Sample inputs -/

/-- A request given by its query parameters. -/
def requestOf (params : List (String × List String)) : Request :=
  { Query := fun k => params.lookup k }

/-- A sample project record. -/
def sampleProject : Project :=
  { Id := 4, URL := "https://example.com", Host := "", IgnoreRobotsTxt := false,
    UseJS := false, Created := 0 }

/-- A sample store: every crawl belongs to user `ownerId`, every defect kind has
`pages` pages of issues, `findProjectById` fails with `perr` when it is not
`none` (returning the zero `Project`), and the issue groups are
`A: 5/priority 1` and `B: 3/priority 2`. -/
def sampleStore (ownerId pages : Int) (perr : Option String) : Datastore :=
  { findCrawlUserId := fun _ => ({ Id := ownerId, Advanced := false }, none)
    findIssues := fun _ =>
      [("A", { Priority := 1, Count := 5 }), ("B", { Priority := 2, Count := 3 })]
    findCrawlById := fun _ => { ProjectId := 4 }
    findProjectById := fun _ _ =>
      match perr with
      | none => (sampleProject, none)
      | some e => (Project.zero, some e)
    CountByMediaType := fun _ => [("text/html", 8)]
    CountByStatusCode := fun _ => [("200", 8)]
    getNumberOfPagesForIssues := fun _ _ => pages
    findPageReportIssues := fun _ _ _ => [{ URL := "https://example.com/a" }]
    FindPageReportById := fun _ => { URL := "https://example.com/a" }
    findErrorTypesByPage := fun _ _ => ["ERROR_EMPTY_TITLE"]
    FindInLinks := fun _ _ => []
    FindPageReportsRedirectingToURL := fun _ _ => []
    FindAllPageReportsByCrawlIdAndErrorType := fun _ _ => [{ URL := "https://example.com/a" }]
    FindAllPageReportsByCrawlId := fun _ => [{ URL := "https://example.com/a" }]
    findSitemapPageReports := fun _ => [{ URL := "https://example.com/a" }] }

/-- A sample environment: priorities 1, 2, 3; `url.Parse` succeeds on the sample
project URL and on the empty string, as the library function does. -/
def sampleEnv : Env :=
  { prio := { Critical := 1, Alert := 2, Warning := 3 }
    urlParse := fun u =>
      if u = "https://example.com" then some "example.com"
      else if u = "" then some ""
      else none
    NewChart := fun c => c
    today := "4-10-2022"
    now := 1000
    startCrawler := fun _ _ => 7
    createIssues := fun rm cid =>
      rm.reporters.map fun dk => { PageReportId := cid, ErrorType := dk.2 } }

/-- The requesting user of the samples. -/
def sampleUser : User := { Id := 1, Advanced := false }

/-- The page `serveIssues` renders for crawl 7 of the sample store. -/
def sampleIssuesPage : PageView :=
  { Data := ViewData.issuesGroup
      { IssuesGroups :=
          [("A", { Priority := 1, Count := 5 }), ("B", { Priority := 2, Count := 3 })]
        Project := { sampleProject with Host := "example.com" }
        Crawl := { ProjectId := 4 }
        MediaCount := [("text/html", 8)]
        StatusCodeCount := [("200", 8)]
        MediaChart := [("text/html", 8)]
        StatusChart := [("200", 8)]
        Critical := 5
        Alert := 3
        Warning := 0 }
    User := sampleUser
    PageTitle := "ISSUES_VIEW" }

/-- The request `r` with the values of parameter `k` replaced by `vs`. -/
def Request.withParam (r : Request) (k : String) (vs : List String) : Request :=
  { Query := fun k' => if k' = k then some vs else r.Query k' }

/-- The `CurrentPage` of every issues view rendered during a run. -/
def currentPages (es : List Effect) : List Int :=
  es.filterMap fun e => match e with
    | Effect.render _ { Data := ViewData.issues iv, .. } => some iv.CurrentPage
    | _ => none

/-- The page `serveIssuesView` renders for crawl 7, defect kind `E`, of the sample
store, with the given navigation fields. -/
def sampleIssuesDetailPage (page next previous total : Int) : PageView :=
  { Data := ViewData.issues
      { PageReports := [{ URL := "https://example.com/a" }]
        Cid := 7
        Eid := "E"
        Project := { sampleProject with Host := "example.com" }
        CurrentPage := page
        NextPage := next
        PreviousPage := previous
        TotalPages := total }
    User := sampleUser
    PageTitle := "ISSUES_DETAIL" }

/-- The `Project` field of every view rendered during a run. -/
def renderedProjects (es : List Effect) : List Project :=
  es.filterMap fun e => match e with
    | Effect.render _ { Data := ViewData.issuesGroup g, .. } => some g.Project
    | Effect.render _ { Data := ViewData.issues iv, .. } => some iv.Project
    | Effect.render _ { Data := ViewData.resources rv, .. } => some rv.Project
    | _ => none

/-- The templates rendered during a run, in order. -/
def renderedTemplates (es : List Effect) : List String :=
  es.filterMap fun e => match e with
    | Effect.render t _ => some t
    | _ => none

/-! ## Arithmetic of `wrapInt` -/

theorem wrapInt_of_inInt {x : Int} (h : InInt x) : wrapInt x = x := by
  unfold InInt minInt maxInt at h
  unfold wrapInt
  omega

theorem inInt_wrapInt (x : Int) : InInt (wrapInt x) := by
  unfold InInt minInt maxInt wrapInt
  omega

theorem wrapInt_add_left (a b : Int) : wrapInt (wrapInt a + b) = wrapInt (a + b) := by
  unfold wrapInt
  omega

/-! ## The roll-up loop -/

theorem tierSum_cons (tier : Int) (kv : String × IssueGroup)
    (rest : List (String × IssueGroup)) :
    tierSum tier (kv :: rest) =
      (if kv.2.Priority = tier then kv.2.Count else 0) + tierSum tier rest := by
  unfold tierSum
  by_cases h : kv.2.Priority = tier <;> simp [List.filter_cons, h]

theorem tierSum_perm (tier : Int) {a b : List (String × IssueGroup)} (h : a.Perm b) :
    tierSum tier a = tierSum tier b := by
  unfold tierSum
  exact ((h.filter _).map _).sum_eq

theorem rollUpStep_inInt (pr : Priorities) (t : Totals) (v : IssueGroup)
    (hc : InInt t.critical) (ha : InInt t.alert) (hw : InInt t.warning) :
    InInt (rollUpStep pr t v).critical ∧ InInt (rollUpStep pr t v).alert ∧
      InInt (rollUpStep pr t v).warning := by
  unfold rollUpStep
  split_ifs <;> simp [inInt_wrapInt, hc, ha, hw]

theorem rollUp_foldl (pr : Priorities) (hd : pr.Distinct) :
    ∀ (groups : List (String × IssueGroup)) (t : Totals),
      InInt t.critical → InInt t.alert → InInt t.warning →
      groups.foldl (fun t kv => rollUpStep pr t kv.2) t =
        { critical := wrapInt (t.critical + tierSum pr.Critical groups)
          alert := wrapInt (t.alert + tierSum pr.Alert groups)
          warning := wrapInt (t.warning + tierSum pr.Warning groups) }
  | [], t, hc, ha, hw => by
    simp [tierSum, wrapInt_of_inInt hc, wrapInt_of_inInt ha, wrapInt_of_inInt hw]
  | kv :: rest, t, hc, ha, hw => by
    obtain ⟨hc', ha', hw'⟩ := rollUpStep_inInt pr t kv.2 hc ha hw
    rw [List.foldl_cons, rollUp_foldl pr hd rest _ hc' ha' hw']
    obtain ⟨h1, h2, h3⟩ := hd
    simp only [tierSum_cons]
    unfold rollUpStep
    by_cases p1 : kv.2.Priority = pr.Critical
    · have p2 : kv.2.Priority ≠ pr.Alert := fun h => h1 (p1.symm.trans h)
      have p3 : kv.2.Priority ≠ pr.Warning := fun h => h2 (p1.symm.trans h)
      simp only [if_pos p1, if_neg p2, if_neg p3, wrapInt_add_left, add_assoc, zero_add]
    · by_cases p2 : kv.2.Priority = pr.Alert
      · have p3 : kv.2.Priority ≠ pr.Warning := fun h => h3 (p2.symm.trans h)
        simp only [if_neg p1, if_pos p2, if_neg p3, wrapInt_add_left, add_assoc, zero_add]
      · by_cases p3 : kv.2.Priority = pr.Warning
        · simp only [if_neg p1, if_neg p2, if_pos p3, wrapInt_add_left, add_assoc, zero_add]
        · simp only [if_neg p1, if_neg p2, if_neg p3, zero_add]

theorem rollUp_eq (pr : Priorities) (hd : pr.Distinct) (groups : List (String × IssueGroup)) :
    rollUp pr groups =
      { critical := wrapInt (tierSum pr.Critical groups)
        alert := wrapInt (tierSum pr.Alert groups)
        warning := wrapInt (tierSum pr.Warning groups) } := by
  have z : InInt 0 := by decide
  unfold rollUp
  rw [rollUp_foldl pr hd groups _ z z z]
  simp

/-! ## Shape of the handlers -/

theorem Atoi_inInt {s : String} {n : Int} (h : Atoi s = some n) : InInt n := by
  unfold Atoi at h
  unfold InInt minInt maxInt
  split at h
  · simp at h
  all_goals
    split at h
    · simp at h
    · split_ifs at h with hb
      simp only [Option.some.injEq] at h
      omega

theorem serveIssues_render_inv (env : Env) (ds : Datastore) (user : User) (r : Request)
    (tmpl : String) (v : PageView)
    (hr : Effect.render tmpl v ∈ serveIssues env ds user r) :
    ∃ cid igv, v.Data = ViewData.issuesGroup igv ∧ igv.IssuesGroups = ds.findIssues cid ∧
      igv.Critical = (rollUp env.prio (ds.findIssues cid)).critical ∧
      igv.Alert = (rollUp env.prio (ds.findIssues cid)).alert ∧
      igv.Warning = (rollUp env.prio (ds.findIssues cid)).warning := by
  unfold serveIssues at hr
  split at hr
  · simp at hr
  · split at hr
    · simp [redirectHome] at hr
    · rename_i cid _
      dsimp only at hr
      split_ifs at hr with h1 h2
      · simp [redirectHome] at hr
      all_goals
        simp [redirectHome] at hr
        split at hr
        · simp at hr
        · simp at hr
          obtain ⟨_, rfl⟩ := hr
          exact ⟨cid, _, rfl, rfl, rfl, rfl, rfl⟩

theorem selectPage_some {T : Int} {p : List String} {page : Int}
    (h : (selectPage T p).2 = some page) :
    InInt page ∧ (p = [] → page = 1) ∧ (p ≠ [] → 1 ≤ page ∧ page ≤ T) := by
  unfold selectPage at h
  cases p with
  | nil =>
    simp only [Option.some.injEq] at h
    subst h
    exact ⟨by decide, fun _ => rfl, fun hne => absurd rfl hne⟩
  | cons x rest =>
    dsimp only at h
    split_ifs at h with hb
    · simp only [Option.some.injEq] at h
      subst h
      refine ⟨?_, fun hne => by simp at hne, fun _ => by omega⟩
      cases hx : Atoi x with
      | none => simp only []; decide
      | some n => exact Atoi_inInt hx

theorem selectPage_effects {T : Int} {p : List String} {e : Effect}
    (h : e ∈ (selectPage T p).1) : e = Effect.logErr ∨ e = redirectHome := by
  unfold selectPage at h
  cases p with
  | nil => simp at h
  | cons x rest =>
    dsimp only at h
    cases hx : Atoi x <;> rw [hx] at h <;> dsimp only at h <;> split_ifs at h <;>
      simp at h <;> simp [h]

theorem serveIssuesView_shape (env : Env) (ds : Datastore) (user : User) (r : Request)
    (e : Effect) (he : e ∈ serveIssuesView env ds user r)
    (hk : (∃ t v, e = Effect.render t v) ∨
      (∃ c p x, e = Effect.store (StoreCall.findPageReportIssues c p x))) :
    ∃ eid q cid page host, r.first "eid" = some eid ∧ r.first "cid" = some q ∧
      Atoi q = some cid ∧
      (selectPage (ds.getNumberOfPagesForIssues cid eid) (r.values "p")).2 = some page ∧
      ¬ notOwner ds user cid ∧
      env.urlParse (ds.findProjectById (ds.findCrawlById cid).ProjectId user.Id).1.URL
        = some host ∧
      (e = Effect.store (StoreCall.findPageReportIssues cid (wrapInt (page - 1)) eid) ∨
       e = Effect.render "issues_view"
          { Data := ViewData.issues
              { Cid := cid
                Eid := eid
                PageReports := ds.findPageReportIssues cid (wrapInt (page - 1)) eid
                Project :=
                  { (ds.findProjectById (ds.findCrawlById cid).ProjectId user.Id).1 with
                    Host := host }
                CurrentPage := page
                NextPage := nextPageOf page (ds.getNumberOfPagesForIssues cid eid)
                PreviousPage := previousPageOf page
                TotalPages := ds.getNumberOfPagesForIssues cid eid }
            User := user
            PageTitle := "ISSUES_DETAIL" }) := by
  unfold serveIssuesView at he
  split at he
  · rcases hk with ⟨t, v, rfl⟩ | ⟨c, p, x, rfl⟩ <;> simp [redirectHome] at he
  · rename_i eid heid
    split at he
    · rcases hk with ⟨t, v, rfl⟩ | ⟨c, p, x, rfl⟩ <;> simp [redirectHome] at he
    · rename_i q hq
      split at he
      · rcases hk with ⟨t, v, rfl⟩ | ⟨c, p, x, rfl⟩ <;> simp [redirectHome] at he
      · rename_i cid hcid
        dsimp only at he
        rw [List.mem_append, List.mem_append] at he
        rcases he with (he | he) | he
        · rcases hk with ⟨t, v, rfl⟩ | ⟨c, p, x, rfl⟩ <;> simp at he
        · rcases selectPage_effects he with h | h <;>
            rcases hk with ⟨t, v, rfl⟩ | ⟨c, p, x, rfl⟩ <;> simp [redirectHome] at h
        · split at he
          · simp at he
          · rename_i page hpage
            split_ifs at he with h1 h2
            · rcases hk with ⟨t, v, rfl⟩ | ⟨c, p, x, rfl⟩ <;> simp [redirectHome] at he
            all_goals
              rw [List.mem_append, List.mem_append] at he
              rcases he with (he | he) | he
              · rcases hk with ⟨t, v, rfl⟩ | ⟨c, p, x, rfl⟩ <;> simp at he
              · rcases hk with ⟨t, v, rfl⟩ | ⟨c, p, x, rfl⟩ <;> simp [redirectHome] at he
              · split at he
                · rcases hk with ⟨t, v, rfl⟩ | ⟨c, p, x, rfl⟩ <;> simp [redirectHome] at he
                · rename_i host hhost
                  refine ⟨eid, q, cid, page, host, heid, hq, hcid, hpage, h1, hhost, ?_⟩
                  simpa using he
theorem serveIssues_guard (env : Env) (ds : Datastore) (user : User) (r : Request)
    (q : String) (cid : Int) (hq : r.first "cid" = some q) (hcid : Atoi q = some cid)
    (hn : notOwner ds user cid) :
    serveIssues env ds user r = [Effect.store (StoreCall.findCrawlUserId cid), redirectHome] := by
  unfold notOwner at hn
  unfold serveIssues
  simp only [hq, hcid, hn, if_true]

theorem serveDownloadCSV_guard (env : Env) (ds : Datastore) (user : User) (r : Request)
    (q : String) (cid : Int) (hq : r.first "cid" = some q) (hcid : Atoi q = some cid)
    (hn : notOwner ds user cid) :
    serveDownloadCSV env ds user r =
      [Effect.store (StoreCall.findCrawlUserId cid), redirectHome] := by
  unfold notOwner at hn
  unfold serveDownloadCSV
  simp only [hq, hcid, hn, if_true]

theorem serveSitemap_guard (env : Env) (ds : Datastore) (user : User) (r : Request)
    (q : String) (cid : Int) (hq : r.first "cid" = some q) (hcid : Atoi q = some cid)
    (hn : notOwner ds user cid) :
    serveSitemap env ds user r =
      [Effect.store (StoreCall.findCrawlUserId cid), redirectHome] := by
  unfold notOwner at hn
  unfold serveSitemap
  simp only [hq, hcid, hn, if_true]

theorem serveResourcesView_guard (env : Env) (ds : Datastore) (user : User) (r : Request)
    (q : String) (cid : Int) (hq : r.first "cid" = some q) (hcid : Atoi q = some cid)
    (hn : notOwner ds user cid) :
    response (serveResourcesView env ds user r) = [redirectHome] := by
  unfold notOwner at hn
  unfold serveResourcesView
  simp only [hq, hcid, hn, if_true]
  split
  · simp [response, Effect.isResponse, redirectHome]
  · split
    · simp [response, Effect.isResponse, redirectHome]
    · split <;> simp [response, Effect.isResponse, redirectHome]

theorem selectPage_cases (T : Int) (p : List String) :
    ((selectPage T p).2 = none ∧
      ((selectPage T p).1 = [redirectHome] ∨
       (selectPage T p).1 = [Effect.logErr, redirectHome])) ∨
    (∃ page, (selectPage T p).2 = some page ∧
      ((selectPage T p).1 = [] ∨ (selectPage T p).1 = [Effect.logErr])) := by
  unfold selectPage
  cases p with
  | nil => simp
  | cons x rest =>
    cases hx : Atoi x <;> simp only [hx] <;> split_ifs <;> simp

theorem serveIssuesView_guard (env : Env) (ds : Datastore) (user : User) (r : Request)
    (q : String) (cid : Int) (hq : r.first "cid" = some q) (hcid : Atoi q = some cid)
    (hn : notOwner ds user cid) :
    response (serveIssuesView env ds user r) = [redirectHome] := by
  unfold notOwner at hn
  unfold serveIssuesView
  simp only [hq, hcid, hn, if_true]
  split
  · simp [response, Effect.isResponse, redirectHome]
  · rename_i eid _
    rcases selectPage_cases (ds.getNumberOfPagesForIssues cid eid) (r.values "p") with
      ⟨h2, h1 | h1⟩ | ⟨page, h2, h1 | h1⟩ <;>
    · rw [h1, h2]
      simp [response, Effect.isResponse, redirectHome]
/-! ## Claims -/

/-- C1. Every view rendered by `serveIssues` carries the issue groups returned by
`findIssues` for some crawl id, and for every ordering `groups` of that map its
`Critical`, `Alert` and `Warning` totals are the sums of `Count` over the groups
of the respective priority, computed in Go's `int` (so wrapped to 64 bits);
whenever such a sum is representable as an `int` the total is exactly that sum. -/
theorem serveIssues_rollUp_totals (env : Env) (hd : env.prio.Distinct) (ds : Datastore)
    (user : User) (r : Request) (tmpl : String) (v : PageView)
    (hr : Effect.render tmpl v ∈ serveIssues env ds user r) :
    ∃ cid igv, v.Data = ViewData.issuesGroup igv ∧ igv.IssuesGroups = ds.findIssues cid ∧
      ∀ groups : List (String × IssueGroup), groups.Perm igv.IssuesGroups →
        (igv.Critical = wrapInt (tierSum env.prio.Critical groups) ∧
         igv.Alert = wrapInt (tierSum env.prio.Alert groups) ∧
         igv.Warning = wrapInt (tierSum env.prio.Warning groups)) ∧
        (InInt (tierSum env.prio.Critical groups) →
          igv.Critical = tierSum env.prio.Critical groups) ∧
        (InInt (tierSum env.prio.Alert groups) →
          igv.Alert = tierSum env.prio.Alert groups) ∧
        (InInt (tierSum env.prio.Warning groups) →
          igv.Warning = tierSum env.prio.Warning groups) := by
  obtain ⟨cid, igv, hv, hg, hc, ha, hw⟩ := serveIssues_render_inv env ds user r tmpl v hr
  refine ⟨cid, igv, hv, hg, ?_⟩
  intro groups hperm
  rw [hg] at hperm
  have e := rollUp_eq env.prio hd (ds.findIssues cid)
  rw [e] at hc ha hw
  simp only at hc ha hw
  rw [hc, ha, hw, tierSum_perm _ hperm, tierSum_perm _ hperm, tierSum_perm _ hperm]
  exact ⟨⟨rfl, rfl, rfl⟩, fun h => wrapInt_of_inInt h, fun h => wrapInt_of_inInt h,
    fun h => wrapInt_of_inInt h⟩

/-- Witness for C1: the sample store holds the groups `A: 5/Critical` and
`B: 3/Alert`; the rendered view has totals 5, 3 and 0. -/
theorem serveIssues_rollUp_totals_witness :
    tierSum sampleEnv.prio.Critical ((sampleStore 1 3 none).findIssues 7) = 5 ∧
    tierSum sampleEnv.prio.Alert ((sampleStore 1 3 none).findIssues 7) = 3 ∧
    tierSum sampleEnv.prio.Warning ((sampleStore 1 3 none).findIssues 7) = 0 ∧
    InInt 5 ∧ InInt 3 ∧ InInt 0 ∧
    sampleEnv.prio.Distinct ∧
    Effect.render "issues" sampleIssuesPage ∈
      serveIssues sampleEnv (sampleStore 1 3 none) sampleUser (requestOf [("cid", ["7"])]) ∧
    ∃ cid igv, sampleIssuesPage.Data = ViewData.issuesGroup igv ∧
      igv.IssuesGroups = (sampleStore 1 3 none).findIssues cid ∧
      ∀ groups : List (String × IssueGroup), groups.Perm igv.IssuesGroups →
        (igv.Critical = wrapInt (tierSum sampleEnv.prio.Critical groups) ∧
         igv.Alert = wrapInt (tierSum sampleEnv.prio.Alert groups) ∧
         igv.Warning = wrapInt (tierSum sampleEnv.prio.Warning groups)) ∧
        (InInt (tierSum sampleEnv.prio.Critical groups) →
          igv.Critical = tierSum sampleEnv.prio.Critical groups) ∧
        (InInt (tierSum sampleEnv.prio.Alert groups) →
          igv.Alert = tierSum sampleEnv.prio.Alert groups) ∧
        (InInt (tierSum sampleEnv.prio.Warning groups) →
          igv.Warning = tierSum sampleEnv.prio.Warning groups) :=
  ⟨by decide, by decide, by decide, by decide, by decide, by decide, by decide, by decide,
    serveIssues_rollUp_totals sampleEnv (by decide) (sampleStore 1 3 none) sampleUser
      (requestOf [("cid", ["7"])]) "issues" sampleIssuesPage (by decide)⟩

/-- Every index passed to `findPageReportIssues` by `serveIssuesView` comes from an
accepted page of a request with well-formed `eid` and `cid`. -/
theorem pageQueries_serveIssuesView (env : Env) (ds : Datastore) (user : User) (r : Request)
    (idx : Int) (h : idx ∈ pageQueries (serveIssuesView env ds user r)) :
    ∃ eid q cid, r.first "eid" = some eid ∧ r.first "cid" = some q ∧ Atoi q = some cid ∧
      (r.values "p" ≠ [] → 0 ≤ idx ∧ idx < ds.getNumberOfPagesForIssues cid eid) ∧
      (r.values "p" = [] → idx = 0) := by
  unfold pageQueries at h
  rw [List.mem_filterMap] at h
  obtain ⟨e, he, hidx⟩ := h
  have hk : ∃ c x, e = Effect.store (StoreCall.findPageReportIssues c idx x) := by
    split at hidx
    · simp only [Option.some.injEq] at hidx
      subst hidx
      exact ⟨_, _, rfl⟩
    · simp at hidx
  obtain ⟨c, x, rfl⟩ := hk
  obtain ⟨eid, q, cid, page, host, heid, hq, hcid, hpage, _, _, hshape⟩ :=
    serveIssuesView_shape env ds user r _ he (Or.inr ⟨_, _, _, rfl⟩)
  obtain ⟨hin, hnil, hcons⟩ := selectPage_some hpage
  have hi : idx = wrapInt (page - 1) := by
    rcases hshape with hs | hs
    · simp only [Effect.store.injEq, StoreCall.findPageReportIssues.injEq] at hs
      exact hs.2.1
    · simp at hs
  refine ⟨eid, q, cid, heid, hq, hcid, ?_, ?_⟩
  · intro hp
    obtain ⟨h1, h2⟩ := hcons hp
    have hw : wrapInt (page - 1) = page - 1 := by
      apply wrapInt_of_inInt
      unfold InInt minInt maxInt at hin ⊢
      omega
    rw [hi, hw]
    omega
  · intro hp
    rw [hi, hnil hp]
    decide

/-- C2 (as amended). For a request to `serveIssuesView` with well-formed `eid` and
`cid`: if the `p` parameter is present, every zero-based index passed to
`findPageReportIssues` lies in `[0, totalPages)`, and a request whose page (the
parsed `p`, or 1 when it does not parse) lies outside `[1, totalPages]` is answered
with the redirect alone and reaches no page query; if `p` is absent, the index
passed is `0` whatever `totalPages` is. -/
theorem serveIssuesView_page_index (env : Env) (ds : Datastore) (user : User) (r : Request)
    (eid q : String) (cid : Int) (heid : r.first "eid" = some eid)
    (hq : r.first "cid" = some q) (hcid : Atoi q = some cid) :
    (r.values "p" ≠ [] →
      ∀ idx ∈ pageQueries (serveIssuesView env ds user r),
        0 ≤ idx ∧ idx < ds.getNumberOfPagesForIssues cid eid) ∧
    (∀ x rest, r.values "p" = x :: rest →
      ((Atoi x).getD 1 < 1 ∨ ds.getNumberOfPagesForIssues cid eid < (Atoi x).getD 1) →
      response (serveIssuesView env ds user r) = [redirectHome] ∧
      pageQueries (serveIssuesView env ds user r) = []) ∧
    (r.values "p" = [] →
      ∀ idx ∈ pageQueries (serveIssuesView env ds user r), idx = 0) := by
  refine ⟨?_, ?_, ?_⟩
  · intro hp idx hidx
    obtain ⟨eid', q', cid', h1, h2, h3, h4, _⟩ :=
      pageQueries_serveIssuesView env ds user r idx hidx
    rw [heid] at h1
    rw [hq] at h2
    cases h1
    cases h2
    rw [hcid] at h3
    cases h3
    exact h4 hp
  · intro x rest hp hout
    unfold serveIssuesView
    simp only [heid, hq, hcid, hp]
    unfold selectPage
    cases hx : Atoi x with
    | none =>
      rw [hx] at hout
      have hout' : ds.getNumberOfPagesForIssues cid eid < 1 := by
        simp only [Option.getD_none] at hout
        omega
      simp only [hx]
      simp [hout', response, pageQueries, Effect.isResponse, redirectHome]
    | some n =>
      rw [hx] at hout
      have hout' : n < 1 ∨ n > ds.getNumberOfPagesForIssues cid eid := hout
      simp only [hx]
      simp [hout', response, pageQueries, Effect.isResponse, redirectHome]
  · intro hp idx hidx
    obtain ⟨_, _, _, _, _, _, _, h5⟩ := pageQueries_serveIssuesView env ds user r idx hidx
    exact h5 hp

/-- Witness for C2: page 2 of 3 is requested and index 1 is queried. -/
theorem serveIssuesView_page_index_witness :
    (requestOf [("eid", ["E"]), ("cid", ["7"]), ("p", ["2"])]).first "eid" = some "E" ∧
    (requestOf [("eid", ["E"]), ("cid", ["7"]), ("p", ["2"])]).first "cid" = some "7" ∧
    Atoi "7" = some 7 ∧
    (requestOf [("eid", ["E"]), ("cid", ["7"]), ("p", ["2"])]).values "p" ≠ [] ∧
    pageQueries (serveIssuesView sampleEnv (sampleStore 1 3 none) sampleUser
      (requestOf [("eid", ["E"]), ("cid", ["7"]), ("p", ["2"])])) = [1] ∧
    ∀ idx ∈ pageQueries (serveIssuesView sampleEnv (sampleStore 1 3 none) sampleUser
        (requestOf [("eid", ["E"]), ("cid", ["7"]), ("p", ["2"])])),
      0 ≤ idx ∧ idx < (sampleStore 1 3 none).getNumberOfPagesForIssues 7 "E" :=
  ⟨by decide, by decide, by decide, by decide, by decide,
    (serveIssuesView_page_index sampleEnv (sampleStore 1 3 none) sampleUser
      (requestOf [("eid", ["E"]), ("cid", ["7"]), ("p", ["2"])]) "E" "7" 7
      (by decide) (by decide) (by decide)).1 (by decide)⟩

/-- Counterexample to C2 as stated: with no `p` parameter and `totalPages = 0` the
handler reaches `findPageReportIssues` with index `0`, which is not below
`totalPages`. -/
theorem serveIssuesView_page_index_counterexample :
    pageQueries (serveIssuesView sampleEnv (sampleStore 1 0 none) sampleUser
      (requestOf [("eid", ["E"]), ("cid", ["7"])])) = [0] ∧
    (sampleStore 1 0 none).getNumberOfPagesForIssues 7 "E" = 0 ∧
    ¬ ∀ idx ∈ pageQueries (serveIssuesView sampleEnv (sampleStore 1 0 none) sampleUser
        (requestOf [("eid", ["E"]), ("cid", ["7"])])),
      0 ≤ idx ∧ idx < (sampleStore 1 0 none).getNumberOfPagesForIssues 7 "E" := by
  decide

/-- C5 (as amended). For a request to `serveIssuesView` with well-formed `eid` and
`cid` whose `p` parameter is present with first value `x`: if `x` denotes an
integer outside `[1, totalPages]` the handler only queries the page count and
redirects to "/", serving no page; if `x` does not parse as an `int` the handler
treats it as page 1, so its response and its store calls are those of the same
request with `p = "1"`. -/
theorem serveIssuesView_page_param (env : Env) (ds : Datastore) (user : User) (r : Request)
    (eid q : String) (cid : Int) (x : String) (rest : List String)
    (heid : r.first "eid" = some eid) (hq : r.first "cid" = some q)
    (hcid : Atoi q = some cid) (hp : r.values "p" = x :: rest) :
    (∀ n, Atoi x = some n → (n < 1 ∨ ds.getNumberOfPagesForIssues cid eid < n) →
      serveIssuesView env ds user r =
        [Effect.store (StoreCall.getNumberOfPagesForIssues cid eid), redirectHome]) ∧
    (Atoi x = none →
      response (serveIssuesView env ds user r) =
        response (serveIssuesView env ds user (r.withParam "p" ["1"])) ∧
      storeCalls (serveIssuesView env ds user r) =
        storeCalls (serveIssuesView env ds user (r.withParam "p" ["1"]))) := by
  constructor
  · intro n hn hout
    unfold serveIssuesView
    simp only [heid, hq, hcid, hp]
    unfold selectPage
    simp only [hn]
    have hout' : n < 1 ∨ n > ds.getNumberOfPagesForIssues cid eid := hout
    simp [hout']
  · intro hx
    have e1 : (r.withParam "p" ["1"]).first "eid" = some eid := by
      rw [← heid]; simp [Request.first, Request.withParam]
    have e2 : (r.withParam "p" ["1"]).first "cid" = some q := by
      rw [← hq]; simp [Request.first, Request.withParam]
    have e3 : (r.withParam "p" ["1"]).values "p" = ["1"] := by
      simp [Request.values, Request.withParam]
    have a1 : Atoi "1" = some 1 := by decide
    unfold serveIssuesView
    simp only [heid, hq, hcid, hp, e1, e2, e3]
    unfold selectPage
    simp only [hx, a1]
    split_ifs <;> simp [response, storeCalls, Effect.isResponse, redirectHome]

/-- Witness for C5: `p = "0"` with three pages is redirected. -/
theorem serveIssuesView_page_param_witness :
    (requestOf [("eid", ["E"]), ("cid", ["7"]), ("p", ["0"])]).first "eid" = some "E" ∧
    (requestOf [("eid", ["E"]), ("cid", ["7"]), ("p", ["0"])]).first "cid" = some "7" ∧
    Atoi "7" = some 7 ∧
    (requestOf [("eid", ["E"]), ("cid", ["7"]), ("p", ["0"])]).values "p" = ["0"] ∧
    Atoi "0" = some 0 ∧
    serveIssuesView sampleEnv (sampleStore 1 3 none) sampleUser
        (requestOf [("eid", ["E"]), ("cid", ["7"]), ("p", ["0"])]) =
      [Effect.store (StoreCall.getNumberOfPagesForIssues 7 "E"), redirectHome] :=
  ⟨by decide, by decide, by decide, by decide, by decide,
    (serveIssuesView_page_param sampleEnv (sampleStore 1 3 none) sampleUser
      (requestOf [("eid", ["E"]), ("cid", ["7"]), ("p", ["0"])]) "E" "7" 7 "0" []
      (by decide) (by decide) (by decide) (by decide)).1 0 (by decide) (Or.inl (by decide))⟩

/-- Counterexample to C5 as stated: `p = "99999999999999999999"` does not fit an
`int`, yet with three pages the handler does not redirect; it serves page 1. -/
theorem serveIssuesView_page_param_counterexample :
    Atoi "99999999999999999999" = none ∧
    redirectHome ∉ serveIssuesView sampleEnv (sampleStore 1 3 none) sampleUser
      (requestOf [("eid", ["E"]), ("cid", ["7"]), ("p", ["99999999999999999999"])]) ∧
    currentPages (serveIssuesView sampleEnv (sampleStore 1 3 none) sampleUser
      (requestOf [("eid", ["E"]), ("cid", ["7"]), ("p", ["99999999999999999999"])])) = [1] ∧
    pageQueries (serveIssuesView sampleEnv (sampleStore 1 3 none) sampleUser
      (requestOf [("eid", ["E"]), ("cid", ["7"]), ("p", ["99999999999999999999"])])) = [0] := by
  decide

/-- C10. Every view rendered by `serveIssuesView` is an issues view whose
`TotalPages` is the page count of the store and whose `CurrentPage` is the
accepted page; when `1 ≤ CurrentPage ≤ TotalPages` (with `TotalPages` an `int`),
`PreviousPage = CurrentPage - 1`, `NextPage = CurrentPage + 1` if
`CurrentPage < TotalPages` and `0` otherwise, `PreviousPage` is `0` exactly on
the first page, `NextPage` is `0` exactly on the last, and both lie in
`[0, TotalPages]`. -/
theorem serveIssuesView_navigation (env : Env) (ds : Datastore) (user : User) (r : Request)
    (tmpl : String) (v : PageView)
    (hr : Effect.render tmpl v ∈ serveIssuesView env ds user r) :
    ∃ eid q cid iv, r.first "eid" = some eid ∧ r.first "cid" = some q ∧
      Atoi q = some cid ∧ v.Data = ViewData.issues iv ∧
      iv.TotalPages = ds.getNumberOfPagesForIssues cid eid ∧
      (selectPage iv.TotalPages (r.values "p")).2 = some iv.CurrentPage ∧
      (InInt iv.TotalPages → 1 ≤ iv.CurrentPage → iv.CurrentPage ≤ iv.TotalPages →
        iv.PreviousPage = iv.CurrentPage - 1 ∧
        iv.NextPage = (if iv.CurrentPage < iv.TotalPages then iv.CurrentPage + 1 else 0) ∧
        (iv.PreviousPage = 0 ↔ iv.CurrentPage = 1) ∧
        (iv.NextPage = 0 ↔ iv.CurrentPage = iv.TotalPages) ∧
        0 ≤ iv.PreviousPage ∧ iv.PreviousPage ≤ iv.TotalPages ∧
        0 ≤ iv.NextPage ∧ iv.NextPage ≤ iv.TotalPages) := by
  obtain ⟨eid, q, cid, page, host, heid, hq, hcid, hpage, _, _, hshape⟩ :=
    serveIssuesView_shape env ds user r _ hr (Or.inl ⟨_, _, rfl⟩)
  rcases hshape with hs | hs
  · simp at hs
  · simp only [Effect.render.injEq] at hs
    obtain ⟨_, rfl⟩ := hs
    refine ⟨eid, q, cid, _, heid, hq, hcid, rfl, rfl, hpage, ?_⟩
    simp only
    intro hT h1 h2
    unfold InInt minInt maxInt at hT
    have hprev : previousPageOf page = page - 1 := by
      unfold previousPageOf
      split_ifs with h
      · apply wrapInt_of_inInt
        unfold InInt minInt maxInt
        omega
      · omega
    have hnext : nextPageOf page (ds.getNumberOfPagesForIssues cid eid) =
        (if page < ds.getNumberOfPagesForIssues cid eid then page + 1 else 0) := by
      unfold nextPageOf
      split_ifs with h
      · apply wrapInt_of_inInt
        unfold InInt minInt maxInt
        omega
      · rfl
    rw [hprev, hnext]
    split_ifs with h <;> omega

/-- Witness for C10: page 2 of 3 has previous page 1 and next page 3. -/
theorem serveIssuesView_navigation_witness :
    InInt 3 ∧ (1 : Int) ≤ 2 ∧ (2 : Int) ≤ 3 ∧
    Effect.render "issues_view" (sampleIssuesDetailPage 2 3 1 3) ∈
      serveIssuesView sampleEnv (sampleStore 1 3 none) sampleUser
        (requestOf [("eid", ["E"]), ("cid", ["7"]), ("p", ["2"])]) ∧
    ∃ eid q cid iv,
      (requestOf [("eid", ["E"]), ("cid", ["7"]), ("p", ["2"])]).first "eid" = some eid ∧
      (requestOf [("eid", ["E"]), ("cid", ["7"]), ("p", ["2"])]).first "cid" = some q ∧
      Atoi q = some cid ∧ (sampleIssuesDetailPage 2 3 1 3).Data = ViewData.issues iv ∧
      iv.TotalPages = (sampleStore 1 3 none).getNumberOfPagesForIssues cid eid ∧
      (selectPage iv.TotalPages
        ((requestOf [("eid", ["E"]), ("cid", ["7"]), ("p", ["2"])]).values "p")).2 =
          some iv.CurrentPage ∧
      (InInt iv.TotalPages → 1 ≤ iv.CurrentPage → iv.CurrentPage ≤ iv.TotalPages →
        iv.PreviousPage = iv.CurrentPage - 1 ∧
        iv.NextPage = (if iv.CurrentPage < iv.TotalPages then iv.CurrentPage + 1 else 0) ∧
        (iv.PreviousPage = 0 ↔ iv.CurrentPage = 1) ∧
        (iv.NextPage = 0 ↔ iv.CurrentPage = iv.TotalPages) ∧
        0 ≤ iv.PreviousPage ∧ iv.PreviousPage ≤ iv.TotalPages ∧
        0 ≤ iv.NextPage ∧ iv.NextPage ≤ iv.TotalPages) :=
  ⟨by decide, by decide, by decide, by decide,
    serveIssuesView_navigation sampleEnv (sampleStore 1 3 none) sampleUser
      (requestOf [("eid", ["E"]), ("cid", ["7"]), ("p", ["2"])]) "issues_view"
      (sampleIssuesDetailPage 2 3 1 3) (by decide)⟩

/-- C9. For a request with a well-formed `cid`, if `findCrawlUserId` fails or
names another user, the response of each of `serveIssues`, `serveIssuesView`,
`serveResourcesView`, `serveDownloadCSV` and `serveSitemap` is exactly the
redirect to "/" (no template is rendered, no header or body is written), so two
stores that both deny ownership produce the same response whatever else they
hold. -/
theorem ownership_guard (env : Env) (ds ds' : Datastore) (user : User) (r : Request)
    (q : String) (cid : Int) (hq : r.first "cid" = some q) (hcid : Atoi q = some cid)
    (hn : notOwner ds user cid) (hn' : notOwner ds' user cid) :
    (response (serveIssues env ds user r) = [Effect.redirect "/" 303] ∧
      response (serveIssues env ds' user r) = response (serveIssues env ds user r)) ∧
    (response (serveIssuesView env ds user r) = [Effect.redirect "/" 303] ∧
      response (serveIssuesView env ds' user r) = response (serveIssuesView env ds user r)) ∧
    (response (serveResourcesView env ds user r) = [Effect.redirect "/" 303] ∧
      response (serveResourcesView env ds' user r) =
        response (serveResourcesView env ds user r)) ∧
    (response (serveDownloadCSV env ds user r) = [Effect.redirect "/" 303] ∧
      response (serveDownloadCSV env ds' user r) =
        response (serveDownloadCSV env ds user r)) ∧
    (response (serveSitemap env ds user r) = [Effect.redirect "/" 303] ∧
      response (serveSitemap env ds' user r) = response (serveSitemap env ds user r)) := by
  have a1 := serveIssues_guard env ds user r q cid hq hcid hn
  have a2 := serveIssues_guard env ds' user r q cid hq hcid hn'
  have b1 := serveIssuesView_guard env ds user r q cid hq hcid hn
  have b2 := serveIssuesView_guard env ds' user r q cid hq hcid hn'
  have c1 := serveResourcesView_guard env ds user r q cid hq hcid hn
  have c2 := serveResourcesView_guard env ds' user r q cid hq hcid hn'
  have d1 := serveDownloadCSV_guard env ds user r q cid hq hcid hn
  have d2 := serveDownloadCSV_guard env ds' user r q cid hq hcid hn'
  have e1 := serveSitemap_guard env ds user r q cid hq hcid hn
  have e2 := serveSitemap_guard env ds' user r q cid hq hcid hn'
  rw [a1, a2, b1, b2, c1, c2, d1, d2, e1, e2]
  simp [response, Effect.isResponse, redirectHome, StatusSeeOther]

/-- Witness for C9: user 1 asks for crawl 7, owned by user 2 in one store and by
user 5 (with other page counts and a failing project lookup) in another. -/
theorem ownership_guard_witness :
    (requestOf [("rid", ["3"]), ("eid", ["E"]), ("cid", ["7"])]).first "cid" = some "7" ∧
    Atoi "7" = some 7 ∧
    notOwner (sampleStore 2 3 none) sampleUser 7 ∧
    notOwner (sampleStore 5 9 (some "no rows")) sampleUser 7 ∧
    response (serveIssuesView sampleEnv (sampleStore 5 9 (some "no rows")) sampleUser
        (requestOf [("rid", ["3"]), ("eid", ["E"]), ("cid", ["7"])])) =
      response (serveIssuesView sampleEnv (sampleStore 2 3 none) sampleUser
        (requestOf [("rid", ["3"]), ("eid", ["E"]), ("cid", ["7"])])) :=
  ⟨by decide, by decide, by decide, by decide,
    (ownership_guard sampleEnv (sampleStore 2 3 none) (sampleStore 5 9 (some "no rows"))
      sampleUser (requestOf [("rid", ["3"]), ("eid", ["E"]), ("cid", ["7"])]) "7" 7
      (by decide) (by decide) (by decide) (by decide)).2.1.2⟩

/-- C6 (the code at the failing input). A request to `serveIssues` without a `cid`
parameter is only logged: the handler returns with an empty response and no
redirect, whereas `serveIssuesView`, `serveResourcesView`, `serveDownloadCSV` and
`serveSitemap` redirect to "/" when `cid` is missing. -/
theorem serveIssues_missing_cid (env : Env) (ds : Datastore) (user : User) :
    serveIssues env ds user (requestOf []) =
      [Effect.log "serveIssues: cid parameter missing"] ∧
    response (serveIssues env ds user (requestOf [])) = [] ∧
    response (serveIssuesView env ds user (requestOf [("eid", ["E"])])) = [redirectHome] ∧
    response (serveResourcesView env ds user (requestOf [("rid", ["3"]), ("eid", ["E"])])) =
      [redirectHome] ∧
    response (serveDownloadCSV env ds user (requestOf [])) = [redirectHome] ∧
    response (serveSitemap env ds user (requestOf [])) = [redirectHome] := by
  have a3 : Atoi "3" = some 3 := by decide
  refine ⟨?_, ?_, ?_, ?_, ?_, ?_⟩ <;>
    simp [serveIssues, serveIssuesView, serveResourcesView, serveDownloadCSV, serveSitemap,
      requestOf, Request.first, response, Effect.isResponse, redirectHome, List.lookup, a3]

/-- C7 (the code at the failing input). When `findProjectById` fails for the owner
of the crawl, each of `serveIssues`, `serveIssuesView` and `serveResourcesView`
redirects to "/" and then still renders its template, with the zero-valued
`Project` returned alongside the error; `serveCrawl` returns after the redirect. -/
theorem findProjectById_error_still_renders :
    (sampleStore 1 3 (some "no rows")).findProjectById 4 1 = (Project.zero, some "no rows") ∧
    response (serveIssues sampleEnv (sampleStore 1 3 (some "no rows")) sampleUser
        (requestOf [("cid", ["7"])])) ≠ [redirectHome] ∧
    (response (serveIssues sampleEnv (sampleStore 1 3 (some "no rows")) sampleUser
        (requestOf [("cid", ["7"])]))).head? = some redirectHome ∧
    renderedTemplates (serveIssues sampleEnv (sampleStore 1 3 (some "no rows")) sampleUser
        (requestOf [("cid", ["7"])])) = ["issues"] ∧
    renderedProjects (serveIssues sampleEnv (sampleStore 1 3 (some "no rows")) sampleUser
        (requestOf [("cid", ["7"])])) = [Project.zero] ∧
    (response (serveIssuesView sampleEnv (sampleStore 1 3 (some "no rows")) sampleUser
        (requestOf [("eid", ["E"]), ("cid", ["7"])]))).head? = some redirectHome ∧
    renderedTemplates (serveIssuesView sampleEnv (sampleStore 1 3 (some "no rows"))
        sampleUser (requestOf [("eid", ["E"]), ("cid", ["7"])])) = ["issues_view"] ∧
    renderedProjects (serveIssuesView sampleEnv (sampleStore 1 3 (some "no rows")) sampleUser
        (requestOf [("eid", ["E"]), ("cid", ["7"])])) = [Project.zero] ∧
    (response (serveResourcesView sampleEnv (sampleStore 1 3 (some "no rows")) sampleUser
        (requestOf [("rid", ["3"]), ("eid", ["E"]), ("cid", ["7"])]))).head? =
      some redirectHome ∧
    renderedTemplates (serveResourcesView sampleEnv (sampleStore 1 3 (some "no rows"))
        sampleUser (requestOf [("rid", ["3"]), ("eid", ["E"]), ("cid", ["7"])])) =
      ["resources"] ∧
    renderedProjects (serveResourcesView sampleEnv (sampleStore 1 3 (some "no rows"))
        sampleUser (requestOf [("rid", ["3"]), ("eid", ["E"]), ("cid", ["7"])])) =
      [Project.zero] ∧
    serveCrawl (sampleStore 1 3 (some "no rows")) sampleUser (requestOf [("pid", ["4"])]) =
      [Effect.store (StoreCall.findProjectById 4 1), redirectHome] := by
  decide

/-- C3. The store calls of the analysis task are, in this order, `saveIssues` with
the issues created for the crawl id returned by the crawler, `saveEndIssues` for
the same crawl id, and `DeletePreviousCrawl` for the project: the deletion occurs
once, and both writes precede it. -/
theorem analysisTask_store_order (env : Env) (user : User) (p : Project) :
    storeCalls (analysisTask env user p) =
      [StoreCall.saveIssues
          (env.createIssues crawlReportManager (env.startCrawler p user.Advanced))
          (env.startCrawler p user.Advanced),
       StoreCall.saveEndIssues (env.startCrawler p user.Advanced) env.now
          (env.createIssues crawlReportManager (env.startCrawler p user.Advanced)).length,
       StoreCall.DeletePreviousCrawl p.Id] ∧
    ∃ before after, analysisTask env user p =
        before ++ Effect.store (StoreCall.DeletePreviousCrawl p.Id) :: after ∧
      Effect.store (StoreCall.saveIssues
          (env.createIssues crawlReportManager (env.startCrawler p user.Advanced))
          (env.startCrawler p user.Advanced)) ∈ before ∧
      Effect.store (StoreCall.saveEndIssues (env.startCrawler p user.Advanced) env.now
          (env.createIssues crawlReportManager (env.startCrawler p user.Advanced)).length)
        ∈ before ∧
      ∀ e ∈ before ++ after, ∀ pid, e ≠ Effect.store (StoreCall.DeletePreviousCrawl pid) := by
  refine ⟨rfl, ?_⟩
  refine ⟨[Effect.log "Crawling", Effect.startCrawler p, Effect.log "Done crawling",
      Effect.log "Creating issues", Effect.createIssues (env.startCrawler p user.Advanced),
      Effect.store (StoreCall.saveIssues
        (env.createIssues crawlReportManager (env.startCrawler p user.Advanced))
        (env.startCrawler p user.Advanced)),
      Effect.store (StoreCall.saveEndIssues (env.startCrawler p user.Advanced) env.now
        (env.createIssues crawlReportManager (env.startCrawler p user.Advanced)).length),
      Effect.log "Done creating issues", Effect.log "Deleting previous crawl data"],
    [Effect.log "Deleted previous crawl done"], rfl, by simp, by simp, ?_⟩
  intro e he pid
  simp only [List.cons_append, List.nil_append, List.mem_cons, List.mem_singleton,
    List.not_mem_nil, or_false] at he
  rcases he with h | h | h | h | h | h | h | h | h | h <;> subst h <;> simp

/-- C8. In the analysis task, whenever `saveIssues(issues, cid)` and
`saveEndIssues(cid', t, total)` both occur, `total` is the length of `issues`,
`cid' = cid` is the crawl id returned by the crawler, and `issues` is the list
returned by `createIssues` for that crawl id. -/
theorem analysisTask_issue_count (env : Env) (user : User) (p : Project)
    (issues : List Issue) (cid cid' : Int) (t : Time) (total : Int)
    (h1 : Effect.store (StoreCall.saveIssues issues cid) ∈ analysisTask env user p)
    (h2 : Effect.store (StoreCall.saveEndIssues cid' t total) ∈ analysisTask env user p) :
    total = issues.length ∧ cid' = cid ∧ cid = env.startCrawler p user.Advanced ∧
      issues = env.createIssues crawlReportManager cid := by
  simp [analysisTask] at h1 h2
  obtain ⟨rfl, rfl⟩ := h1
  obtain ⟨rfl, _, rfl⟩ := h2
  exact ⟨rfl, rfl, rfl, rfl⟩

/-- Witness for C8: the sample crawler returns crawl 7 and the sample
`createIssues` yields one issue per registered reporter, 24 in all. -/
theorem analysisTask_issue_count_witness :
    Effect.store (StoreCall.saveIssues (sampleEnv.createIssues crawlReportManager 7) 7) ∈
      analysisTask sampleEnv sampleUser sampleProject ∧
    Effect.store (StoreCall.saveEndIssues 7 1000 24) ∈
      analysisTask sampleEnv sampleUser sampleProject ∧
    (24 : Int) = (sampleEnv.createIssues crawlReportManager 7).length ∧ (7 : Int) = 7 ∧
      (7 : Int) = sampleEnv.startCrawler sampleProject sampleUser.Advanced ∧
      sampleEnv.createIssues crawlReportManager 7 =
        sampleEnv.createIssues crawlReportManager 7 :=
  ⟨by decide, by decide,
    analysisTask_issue_count sampleEnv sampleUser sampleProject
      (sampleEnv.createIssues crawlReportManager 7) 7 7 1000 24 (by decide) (by decide)⟩

/-- C4 (the code as written). In the list built by the `addReporter` calls of
`serveCrawl`, the detector `FindPageReportsWithDuplicatedTitle` is registered for
both `ErrorDuplicatedTitle` and `ErrorDuplicatedDescription`, and the detector
`findCanonicalizedToNonCanonical` for both `ErrorCanonicalizedToNonCanonical` and
`ErrorRedirectLoop`, so some detector is paired with two different kinds. -/
theorem crawlReportManager_shared_detectors :
    crawlReportManager.reporters.length = 24 ∧
    (crawlReportManager.reporters.filter
        (fun dk => dk.2 = ErrorKind.ErrorDuplicatedTitle ∨
          dk.2 = ErrorKind.ErrorDuplicatedDescription)).map Prod.fst =
      [DetectorFn.FindPageReportsWithDuplicatedTitle,
       DetectorFn.FindPageReportsWithDuplicatedTitle] ∧
    (crawlReportManager.reporters.filter
        (fun dk => dk.2 = ErrorKind.ErrorCanonicalizedToNonCanonical ∨
          dk.2 = ErrorKind.ErrorRedirectLoop)).map Prod.fst =
      [DetectorFn.findCanonicalizedToNonCanonical,
       DetectorFn.findCanonicalizedToNonCanonical] ∧
    ¬ ∀ a ∈ crawlReportManager.reporters, ∀ b ∈ crawlReportManager.reporters,
        a.1 = b.1 → a.2 = b.2 := by
  decide

end Seonaut
